import Mathlib

/-!
Verification of the homework-status polling bot (`homework.py`).

The embedding models Python values crossing the JSON boundary, the response
validation (`check_response`), status interpretation (`parse_status`),
configuration checking (`check_tokens`), the startup branch of `main`, the
main poll cycle, and the error-log-to-notification bridge
(`TelegramFilter.filter` together with `send_message`).
-/

/-- A Python value as it can appear in the parsed JSON response of the
practicum API (and the values handed around by the script). `noneV` models
Python `None`, which is also what `dict.get` returns for an absent key. -/
inductive PyVal where
  | str (s : String)
  | int (n : Int)
  | bool (b : Bool)
  | noneV
  | list (xs : List PyVal)
  | dict (entries : List (String × PyVal))

/-- Python `d.get(k)`: the first value bound to `k`, or `None` when absent.
Python dicts have unique keys, so first-match lookup agrees with dict lookup. -/
def pyGet (entries : List (String × PyVal)) (k : String) : PyVal :=
  match entries.find? (fun e => e.1 = k) with
  | some e => e.2
  | none => PyVal.noneV

/-- Python `k in d` on a dict. -/
def pyHasKey (entries : List (String × PyVal)) (k : String) : Bool :=
  (entries.find? (fun e => e.1 = k)).isSome

/-- Python `isinstance(v, Dict)`. -/
def isDict : PyVal → Bool
  | PyVal.dict _ => true
  | _ => false

/-- Python `isinstance(v, List)`. -/
def isList : PyVal → Bool
  | PyVal.list _ => true
  | _ => false

/-- Python `str(v)` as used by an f-string substitution. Exact for the scalar
values; the rendering of compound values is abbreviated (no theorem below
ever formats a compound value, since `parse_status` only formats values taken
from homework records). -/
def pyStr : PyVal → String
  | PyVal.str s => s
  | PyVal.int n => toString n
  | PyVal.bool b => if b then "True" else "False"
  | PyVal.noneV => "None"
  | PyVal.list _ => "<list>"
  | PyVal.dict _ => "<dict>"

/-- Python `v == s` for a string literal `s`: true exactly when `v` is that
string (Python equality between a non-string value and a string is `False`). -/
def pyEqStr : PyVal → String → Bool
  | PyVal.str t, s => t = s
  | _, _ => false

/-- Python hashability of a JSON value: lists and dicts are unhashable, so
using one as the left operand of a dict membership test (`v in d` /
`v not in d`) raises `TypeError: unhashable type`; the scalar values hash
fine. -/
def pyHashable : PyVal → Bool
  | PyVal.list _ => false
  | PyVal.dict _ => false
  | _ => true

/-- The static verdict table `HOMEWORK_VERDICTS` of `homework.py`. -/
def HOMEWORK_VERDICTS : List (String × String) :=
  [("approved", "Работа проверена: ревьюеру всё понравилось. Ура!"),
   ("reviewing", "Работа взята на проверку ревьюером."),
   ("rejected", "Работа проверена: у ревьюера есть замечания.")]

/-- The error kinds raised during a cycle. `typeError` and `valueError` are
Python builtins raised without arguments in `homework.py`.
Modelled from the spec: the repository's `exceptions` module (imported by
`homework.py` but not present under `src/`) supplies the classes
`PracticumRequestError` (spec: `RequestError`, carrying a message),
`UnreachablePracticumEndpoint` (spec: `UnreachableEndpoint`) and
`MalformedPracticumReply` (spec: `MalformedReply`). -/
inductive PracticumError where
  | practicumRequestError (msg : String)
  | unreachablePracticumEndpoint
  | malformedPracticumReply
  | typeError
  | valueError
  deriving DecidableEq, Repr

/-- Model of `check_response` in `homework.py`: raises `TypeError` when the response is
not a dict, raises `TypeError` when `response.get("homeworks")` is not a list
(note: an absent key yields `None`, which is not a list), then, when the key
`code` is present, raises `PracticumRequestError` for the two recognized error
codes. The final branch of the source only logs a debug record when the
homeworks list is empty; it raises nothing. -/
def check_response (response : PyVal) : Except PracticumError Unit :=
  match response with
  | PyVal.dict entries =>
    if ¬ isList (pyGet entries "homeworks") then
      Except.error PracticumError.typeError
    else if pyHasKey entries "code" then
      if pyEqStr (pyGet entries "code") "not_authenticated" then
        Except.error (PracticumError.practicumRequestError "Ошибра авторизации.")
      else if pyEqStr (pyGet entries "code") "UnknownError" then
        Except.error (PracticumError.practicumRequestError "Неизвестная ошибка.")
      else Except.ok ()
    else Except.ok ()
  | _ => Except.error PracticumError.typeError

/-- Model of `parse_status` in `homework.py`: requires the keys `status` and
`homework_name` (absence raises `MalformedPracticumReply`), then evaluates the
membership test `homework_status not in HOMEWORK_VERDICTS` — which raises
`TypeError` when the status value is unhashable (a list or dict), and
otherwise compares the value against the table's string keys — raising
`ValueError` when no key matches, and on success formats the notification
sentence. -/
def parse_status (homework : List (String × PyVal)) : Except PracticumError String :=
  if ¬ pyHasKey homework "status" then
    Except.error PracticumError.malformedPracticumReply
  else if ¬ pyHasKey homework "homework_name" then
    Except.error PracticumError.malformedPracticumReply
  else
    let homework_name := pyGet homework "homework_name"
    let homework_status := pyGet homework "status"
    if ¬ pyHashable homework_status then
      Except.error PracticumError.typeError
    else
      match HOMEWORK_VERDICTS.find? (fun e => pyEqStr homework_status e.1) with
      | none => Except.error PracticumError.valueError
      | some e =>
        Except.ok ("Изменился статус проверки работы \"" ++ pyStr homework_name
          ++ "\". " ++ e.2)

/-! ## Configuration check and process startup -/

/-- Python logging severity numbers used by the script. -/
def DEBUG_LEVEL : Nat := 10

/-- Severity number of `logging.ERROR`. -/
def ERROR_LEVEL : Nat := 40

/-- Severity number of `logging.CRITICAL` (the fatal severity). -/
def CRITICAL_LEVEL : Nat := 50

/-- Python truthiness of `os.getenv(x)`: `None` (unset) and the empty string
are falsy. -/
def envTruthy : Option String → Bool
  | none => false
  | some s => s ≠ ""

/-- Model of `check_tokens` in `homework.py`: all three environment variables must be
set and non-empty. -/
def check_tokens (env : String → Option String) : Bool :=
  ["PRACTICUM_TOKEN", "TELEGRAM_TOKEN", "TELEGRAM_CHAT_ID"].all
    (fun x => envTruthy (env x))

/-- The fixed message logged at critical severity by `main` when
`check_tokens` fails. -/
def missingTokensMsg : String :=
  "Не объявлены необходимые переменные окружения. Программа принудительно остановлена."

/-- Outcome of the startup section of `main` (before the loop): either the
process hard-exits (`os._exit`) with a logged record and an exit code, or it
proceeds into the polling loop. No network call happens before this branch. -/
inductive StartupResult where
  | exit (severity : Nat) (logged : String) (code : Nat)
  | proceed
  deriving DecidableEq, Repr

/-- The startup branch of `main`: when `check_tokens` fails, it logs the fixed
message at critical severity and calls `os._exit(0)`; otherwise the loop is
entered. -/
def mainStartup (env : String → Option String) : StartupResult :=
  if check_tokens env then StartupResult.proceed
  else StartupResult.exit CRITICAL_LEVEL missingTokensMsg 0

/-! ## One iteration of the main polling loop

`get_api_answer` performs network I/O, so the fetch outcome is an oracle
parameter: either a raised error (transport failure or non-200 status) or the
parsed JSON body. The body of `while True` is then deterministic: validate,
then for each homework record interpret and send, catching any raised error at
the cycle boundary; the checkpoint advances to the current wall-clock time
only on the success path. -/

/-- Python `str(error)` for the exceptions caught at the cycle boundary:
`PracticumRequestError` is raised with a message argument, the others are
raised bare (empty string). -/
def errStr : PracticumError → String
  | PracticumError.practicumRequestError m => m
  | _ => ""

/-- The error-severity record logged by the cycle's `except` clause. -/
def cycleFailureMsg (e : PracticumError) : String :=
  "Сбой в работе программы: " ++ errStr e

/-- Result of one loop iteration: the checkpoint after the cycle, the
notification texts handed to `send_message` (in order), and the
error-severity record logged by the `except` clause, if any. -/
structure CycleResult where
  checkpoint : Nat
  notifications : List String
  errorLogged : Option String
  deriving DecidableEq, Repr

/-- The `for homework in homeworks` loop: each record is interpreted with
`parse_status` and the resulting message sent; the first raised error aborts
the rest of the iteration (messages already sent stay sent). A list element
that is not a dict makes Python's `"status" not in homework` raise
`TypeError`. -/
def processHomeworks : List PyVal → List String × Option PracticumError
  | [] => ([], none)
  | hw :: rest =>
    match hw with
    | PyVal.dict entries =>
      match parse_status entries with
      | Except.error e => ([], some e)
      | Except.ok msg =>
        let r := processHomeworks rest
        (msg :: r.1, r.2)
    | _ => ([], some PracticumError.typeError)

/-- The list bound by `homeworks = practicum_response.get("homeworks")` in
`main`. After `check_response` succeeded the value is a list; the other
branches are unreachable on the success path. -/
def extractHomeworks (response : PyVal) : List PyVal :=
  match response with
  | PyVal.dict entries =>
    match pyGet entries "homeworks" with
    | PyVal.list xs => xs
    | _ => []
  | _ => []

/-- One iteration of `while True` in `main`: `now` is `int(time.time())` at
the end of the iteration, `fetched` the outcome of `get_api_answer`, and
`checkpoint` the current `last_successful_check`. Any error raised by the
fetch, by `check_response`, or by `parse_status` is caught by the `except`
clause, logged at error severity, and leaves the checkpoint unchanged; on the
success path (`else`) the checkpoint becomes `now`. -/
def runCycle (now : Nat) (fetched : Except PracticumError PyVal)
    (checkpoint : Nat) : CycleResult :=
  match fetched with
  | Except.error e =>
    { checkpoint := checkpoint, notifications := [],
      errorLogged := some (cycleFailureMsg e) }
  | Except.ok response =>
    match check_response response with
    | Except.error e =>
      { checkpoint := checkpoint, notifications := [],
        errorLogged := some (cycleFailureMsg e) }
    | Except.ok _ =>
      let r := processHomeworks (extractHomeworks response)
      match r.2 with
      | some e =>
        { checkpoint := checkpoint, notifications := r.1,
          errorLogged := some (cycleFailureMsg e) }
      | none =>
        { checkpoint := now, notifications := r.1, errorLogged := none }

/-! ## The error-log-to-notification bridge

`TelegramFilter` is attached to the root logger, so every record logged by the
process passes through `TelegramFilter.filter`. The filter forwards
error-severity records whose text differs from `last_message` to
`send_message`, which itself logs records through the same root logger:
a debug record before the delivery attempt, then either a debug confirmation
(delivery succeeded) or an error record naming the failed message (delivery
raised `TelegramError`). Those nested records re-enter the filter, so the two
functions are mutually recursive; `fuel` bounds the modelled recursion depth
(Python has no such bound — it recurses until the interpreter's recursion
limit). `deliver` models whether `bot.send_message` succeeds for a given
text. -/

/-- A record of the process log stream: severity number and message text. -/
structure LogRecord where
  levelno : Nat
  msg : String
  deriving DecidableEq, Repr

/-- State of the bridge: the filter's `last_message` attribute and the texts
handed to `bot.send_message` so far (delivery attempts, in order). -/
structure BridgeState where
  last_message : String
  sentAttempts : List String
  deriving DecidableEq, Repr

/-- The debug record logged by `send_message` before the delivery attempt. -/
def sendingLog (m : String) : String :=
  "Отправляем сообщение в телеграм: " ++ m ++ "."

/-- The debug record logged by `send_message` after a successful delivery. -/
def sentLog (m : String) : String :=
  "Бот отправил сообщение: " ++ m

/-- The error record logged by `send_message` when delivery fails. -/
def sendFailLog (m : String) : String :=
  "Бот не смог отправить сообщение " ++ m

/-- Routing one log record through the root logger's `TelegramFilter.filter`
(this is the body of `TelegramFilter.filter` with the call to `send_message`
inlined, so that the recursion is structural on `fuel`): when the record has
error severity and its text differs from `last_message`, the text is sent —
`send_message` logs a debug record, records the delivery attempt, then logs a
debug confirmation on success or an error record on failure, each nested
record re-entering the filter — and then recorded as the new `last_message`
(the assignment happens after `send_message` returns). At fuel 0 the model
stops recursing and leaves the state unchanged. -/
def logViaFilter (deliver : String → Bool) : Nat → BridgeState → LogRecord → BridgeState
  | 0, s, _ => s
  | n + 1, s, record =>
    if record.levelno = ERROR_LEVEL ∧ s.last_message ≠ record.msg then
      let s0 := logViaFilter deliver n s
        { levelno := DEBUG_LEVEL, msg := sendingLog record.msg }
      let s1 := { s0 with sentAttempts := s0.sentAttempts ++ [record.msg] }
      let s2 :=
        if deliver record.msg then
          logViaFilter deliver n s1 { levelno := DEBUG_LEVEL, msg := sentLog record.msg }
        else
          logViaFilter deliver n s1 { levelno := ERROR_LEVEL, msg := sendFailLog record.msg }
      { s2 with last_message := record.msg }
    else s

/-- Model of `TelegramFilter.filter` in `homework.py`, applied to one log
record (see `logViaFilter`). -/
def TelegramFilter.filter (deliver : String → Bool) (fuel : Nat)
    (s : BridgeState) (record : LogRecord) : BridgeState :=
  logViaFilter deliver fuel s record

/-- Model of `send_message` in `homework.py`: logs a debug record, attempts delivery
(recording the attempt), then logs a debug confirmation on success or an
error record on failure. Every logged record passes through the root logger
and hence through `TelegramFilter.filter`. -/
def send_message (deliver : String → Bool) (fuel : Nat)
    (s : BridgeState) (message : String) : BridgeState :=
  let s0 := logViaFilter deliver fuel s
    { levelno := DEBUG_LEVEL, msg := sendingLog message }
  let s1 := { s0 with sentAttempts := s0.sentAttempts ++ [message] }
  if deliver message then
    logViaFilter deliver fuel s1
      { levelno := DEBUG_LEVEL, msg := sentLog message }
  else
    logViaFilter deliver fuel s1
      { levelno := ERROR_LEVEL, msg := sendFailLog message }

/-- Feeding a sequence of error-severity records (one per failing cycle)
through the filter, as the `except` clause of `main` does via
`logging.error`. -/
def runErrorRecords (deliver : String → Bool) (fuel : Nat)
    (s : BridgeState) (msgs : List String) : BridgeState :=
  msgs.foldl (fun s m =>
    TelegramFilter.filter deliver fuel s { levelno := ERROR_LEVEL, msg := m }) s

/-! ## Auxiliary definitions used by the theorems -/

/-- An environment in which only `PRACTICUM_TOKEN` is missing. -/
def envMissingPracticum : String → Option String :=
  fun x => if x = "PRACTICUM_TOKEN" then none else some "set"

/-- An environment in which only `TELEGRAM_CHAT_ID` is missing. -/
def envMissingChatId : String → Option String :=
  fun x => if x = "TELEGRAM_CHAT_ID" then none else some "set"

/-- Exit code of a startup outcome, when the process exited. -/
def exitCode : StartupResult → Option Nat
  | StartupResult.exit _ _ c => some c
  | StartupResult.proceed => none

/-- Severity of the record logged by a startup exit. -/
def exitSeverity : StartupResult → Option Nat
  | StartupResult.exit sev _ _ => some sev
  | StartupResult.proceed => none

/-- The messages handed to the failing bot by the runaway recursion: each
delivery failure logs a new error record whose text wraps the previous one,
and that record is itself forwarded. -/
def failChainMsgs : Nat → String → List String
  | 0, _ => []
  | n + 1, m => m :: failChainMsgs n (sendFailLog m)

/-! ## General lemmas -/

/-- At positive fuel, `TelegramFilter.filter` has the source's mutual shape:
forward through `send_message` (at one less fuel), then update
`last_message`. -/
theorem TelegramFilter.filter_succ (deliver : String → Bool) (n : Nat)
    (s : BridgeState) (record : LogRecord) :
    TelegramFilter.filter deliver (n + 1) s record
    = if record.levelno = ERROR_LEVEL ∧ s.last_message ≠ record.msg then
        { send_message deliver n s record.msg with last_message := record.msg }
      else s := rfl

/-! ## Helper lemmas -/

/-- A key whose looked-up value is not `None` is present in the dict. -/
theorem pyHasKey_of_pyGet_ne_none (h : List (String × PyVal)) (k : String)
    (hv : pyGet h k ≠ PyVal.noneV) : pyHasKey h k = true := by
  unfold pyGet at hv
  unfold pyHasKey
  cases hfind : h.find? (fun e => e.1 = k) with
  | none => rw [hfind] at hv; exact absurd rfl hv
  | some e => simp

/-! ## Claim C1 -/

/-- C1, counterexample: for the well-formed record with name `hw1` and status
`approved`, `parse_status` does not return the English sentence the claim
states; the configured template is the Russian sentence. -/
theorem C1_counterexample :
    parse_status [("homework_name", PyVal.str "hw1"), ("status", PyVal.str "approved")]
      ≠ Except.ok ("Changed review status of work \"hw1\". "
          ++ "Работа проверена: ревьюеру всё понравилось. Ура!")
    ∧ parse_status [("homework_name", PyVal.str "hw1"), ("status", PyVal.str "approved")]
      = Except.ok ("Изменился статус проверки работы \"hw1\". "
          ++ "Работа проверена: ревьюеру всё понравилось. Ура!") := by
  refine ⟨fun h => ?_, rfl⟩
  have h2 : ("Изменился статус проверки работы \"hw1\". "
        ++ "Работа проверена: ревьюеру всё понравилось. Ура!" : String)
      = "Changed review status of work \"hw1\". "
        ++ "Работа проверена: ревьюеру всё понравилось. Ура!" := Except.ok.inj h
  exact absurd h2 (by decide)

/-- C1 (amended): for every homework record whose `homework_name` value is a
string and whose status value is a key of the verdict table, `parse_status`
succeeds and returns exactly the configured sentence — the Russian template
with the homework name and the table's verdict text substituted. -/
theorem C1_amended (homework : List (String × PyVal)) (name status verdict : String)
    (hname : pyGet homework "homework_name" = PyVal.str name)
    (hstatus : pyGet homework "status" = PyVal.str status)
    (hmem : (status, verdict) ∈ HOMEWORK_VERDICTS) :
    parse_status homework
      = Except.ok ("Изменился статус проверки работы \"" ++ name ++ "\". " ++ verdict) := by
  have hk1 : pyHasKey homework "status" = true :=
    pyHasKey_of_pyGet_ne_none _ _ (by rw [hstatus]; intro h; exact PyVal.noConfusion h)
  have hk2 : pyHasKey homework "homework_name" = true :=
    pyHasKey_of_pyGet_ne_none _ _ (by rw [hname]; intro h; exact PyVal.noConfusion h)
  unfold parse_status
  rw [hk1, hk2]
  simp only [not_true_eq_false, if_false, Bool.false_eq_true]
  rw [hstatus, hname]
  simp only [HOMEWORK_VERDICTS, List.mem_cons, List.not_mem_nil, or_false,
    Prod.mk.injEq] at hmem
  rcases hmem with ⟨h1, h2⟩ | ⟨h1, h2⟩ | ⟨h1, h2⟩ <;> subst h1 <;> subst h2 <;> rfl

/-- C1, witness: the amended theorem applied to the `hw1`-approved record. -/
theorem C1_witness :
    parse_status [("homework_name", PyVal.str "hw1"), ("status", PyVal.str "approved")]
      = Except.ok ("Изменился статус проверки работы \"hw1\". "
          ++ "Работа проверена: ревьюеру всё понравилось. Ура!") :=
  C1_amended _ "hw1" "approved" "Работа проверена: ревьюеру всё понравилось. Ура!"
    rfl rfl (by decide)

/-! ## Claim C6 -/

/-- C6, counterexample: a record with both keys whose status value is a JSON
array is outside the verdict table, yet `parse_status` fails with `TypeError`
(Python's unhashable-type error raised by the dict membership test), not with
the `ValueError`-class error the claim states for every such record. -/
theorem C6_counterexample :
    parse_status [("status", PyVal.list []), ("homework_name", PyVal.str "hw1")]
      = Except.error PracticumError.typeError
    ∧ PracticumError.typeError ≠ PracticumError.valueError :=
  ⟨rfl, by decide⟩

/-- C6 (amended): `parse_status` fails with `MalformedPracticumReply` for
every record missing the `status` or the `homework_name` key (producing no
message); for every record having both keys whose status value is hashable
but matches no key of the verdict table it fails with `ValueError`; a record
whose status value is unhashable (a list or dict) instead fails with
`TypeError`, raised by the membership test itself — in no case is the record
silently ignored. -/
theorem C6_amended (homework : List (String × PyVal)) :
    ((pyHasKey homework "status" = false ∨ pyHasKey homework "homework_name" = false) →
      parse_status homework = Except.error PracticumError.malformedPracticumReply)
    ∧ (pyHasKey homework "status" = true → pyHasKey homework "homework_name" = true →
      pyHashable (pyGet homework "status") = true →
      (∀ e ∈ HOMEWORK_VERDICTS, pyEqStr (pyGet homework "status") e.1 = false) →
      parse_status homework = Except.error PracticumError.valueError)
    ∧ (pyHasKey homework "status" = true → pyHasKey homework "homework_name" = true →
      pyHashable (pyGet homework "status") = false →
      parse_status homework = Except.error PracticumError.typeError) := by
  refine ⟨fun hmiss => ?_, fun hk1 hk2 hh hnone => ?_, fun hk1 hk2 hh => ?_⟩
  · unfold parse_status
    rcases hmiss with hm | hm
    · rw [hm]; rfl
    · rw [hm]
      by_cases hs : pyHasKey homework "status" = true
      · rw [hs]; rfl
      · rw [Bool.not_eq_true] at hs; rw [hs]; rfl
  · unfold parse_status
    rw [hk1, hk2]
    simp only [not_true_eq_false, if_false, Bool.false_eq_true]
    rw [hh]
    simp only [not_true_eq_false, if_false, Bool.false_eq_true]
    have hfind : HOMEWORK_VERDICTS.find?
        (fun e => pyEqStr (pyGet homework "status") e.1) = none := by
      rw [List.find?_eq_none]
      intro e he
      rw [hnone e he]
      exact Bool.false_ne_true
    rw [hfind]
  · unfold parse_status
    rw [hk1, hk2]
    simp only [not_true_eq_false, if_false, Bool.false_eq_true]
    rw [hh]
    simp

/-- C6, witness: the empty record is malformed; a record with an unknown
string status fails with `ValueError`; a record with a list-valued status
fails with `TypeError`. -/
theorem C6_witness :
    parse_status [] = Except.error PracticumError.malformedPracticumReply
    ∧ parse_status [("status", PyVal.str "weird"), ("homework_name", PyVal.str "hw1")]
      = Except.error PracticumError.valueError
    ∧ parse_status [("status", PyVal.dict []), ("homework_name", PyVal.str "hw1")]
      = Except.error PracticumError.typeError :=
  ⟨(C6_amended []).1 (Or.inl rfl),
   (C6_amended _).2.1 rfl rfl rfl (by decide),
   (C6_amended _).2.2 rfl rfl rfl⟩

/-! ## Claim C3 -/

/-- C3, counterexample: the empty dict is a mapping whose `homeworks` key is
absent (so, per the claim, not a `TypeError` case), yet `check_response`
raises `TypeError`, because `response.get` turns the absent key into `None`,
which is not a list. -/
theorem C3_counterexample :
    isDict (PyVal.dict []) = true
    ∧ pyHasKey [] "homeworks" = false
    ∧ check_response (PyVal.dict []) = Except.error PracticumError.typeError :=
  ⟨rfl, rfl, rfl⟩

/-- C3 (amended): `check_response` fails with `TypeError` exactly when the
top-level value is not a mapping or when the `homeworks` lookup (which yields
`None` when the key is absent) is not a sequence; for a mapping whose
`homeworks` value is the empty sequence it succeeds and the cycle sends zero
notifications. -/
theorem C3_amended :
    (∀ response : PyVal,
      check_response response = Except.error PracticumError.typeError
        ↔ (isDict response = false ∨
            ∃ entries, response = PyVal.dict entries
              ∧ isList (pyGet entries "homeworks") = false))
    ∧ check_response (PyVal.dict [("homeworks", PyVal.list [])]) = Except.ok ()
    ∧ ∀ now cp : Nat,
        (runCycle now (Except.ok (PyVal.dict [("homeworks", PyVal.list [])])) cp).notifications
          = []
        ∧ (runCycle now (Except.ok (PyVal.dict [("homeworks", PyVal.list [])])) cp).errorLogged
          = none := by
  refine ⟨fun response => ?_, rfl, fun now cp => ⟨rfl, rfl⟩⟩
  cases response with
  | dict entries =>
    by_cases hl : isList (pyGet entries "homeworks") = true
    · constructor
      · intro h
        exfalso
        revert h
        simp only [check_response]
        rw [hl]
        simp only [not_true_eq_false, if_false, Bool.false_eq_true]
        by_cases hc : pyHasKey entries "code" = true
        · rw [hc]
          by_cases h1 : pyEqStr (pyGet entries "code") "not_authenticated" = true
          · rw [h1]; simp
          · rw [Bool.not_eq_true] at h1
            rw [h1]
            by_cases h2 : pyEqStr (pyGet entries "code") "UnknownError" = true
            · rw [h2]; simp
            · rw [Bool.not_eq_true] at h2; rw [h2]; simp
        · rw [Bool.not_eq_true] at hc; rw [hc]; simp
      · rintro (h | ⟨entries2, heq, h2⟩)
        · exact absurd h (by simp [isDict])
        · cases heq
          rw [hl] at h2
          exact absurd h2 (by decide)
    · rw [Bool.not_eq_true] at hl
      constructor
      · intro _
        exact Or.inr ⟨entries, rfl, hl⟩
      · intro _
        simp only [check_response]
        rw [hl]
        rfl
  | str s => simp [check_response, isDict]
  | int n => simp [check_response, isDict]
  | bool b => simp [check_response, isDict]
  | noneV => simp [check_response, isDict]
  | list xs => simp [check_response, isDict]

/-! ## Claim C9 -/

/-- C9: the homeworks-shape check precedes the code-field check: every dict
whose `homeworks` lookup is not a list (in particular one lacking the key
entirely, such as the bare not-authenticated response) fails with `TypeError`,
and a `PracticumRequestError` can only come out of `check_response` when the
response is a dict carrying a list-valued `homeworks` key. -/
theorem C9_homeworks_check_precedes_code_check :
    (∀ entries : List (String × PyVal), isList (pyGet entries "homeworks") = false →
      check_response (PyVal.dict entries) = Except.error PracticumError.typeError)
    ∧ check_response (PyVal.dict [("code", PyVal.str "not_authenticated")])
        = Except.error PracticumError.typeError
    ∧ ∀ (response : PyVal) (m : String),
        check_response response = Except.error (PracticumError.practicumRequestError m) →
        ∃ entries, response = PyVal.dict entries
          ∧ pyHasKey entries "homeworks" = true
          ∧ isList (pyGet entries "homeworks") = true := by
  refine ⟨fun entries h => ?_, rfl, fun response m h => ?_⟩
  · simp only [check_response]
    rw [h]
    rfl
  · cases response with
    | dict entries =>
      by_cases hl : isList (pyGet entries "homeworks") = true
      · refine ⟨entries, rfl, ?_, hl⟩
        refine pyHasKey_of_pyGet_ne_none _ _ (fun hn => ?_)
        rw [hn] at hl
        exact absurd hl (by decide)
      · rw [Bool.not_eq_true] at hl
        simp only [check_response] at h
        rw [hl] at h
        simp at h
    | str s => exact absurd h (by simp [check_response])
    | int n => exact absurd h (by simp [check_response])
    | bool b => exact absurd h (by simp [check_response])
    | noneV => exact absurd h (by simp [check_response])
    | list xs => exact absurd h (by simp [check_response])

/-- C9, witness: the first part applied to the bare not-authenticated dict,
and the third part applied to a response that does produce a
`PracticumRequestError`. -/
theorem C9_witness :
    check_response (PyVal.dict [("code", PyVal.str "not_authenticated")])
      = Except.error PracticumError.typeError
    ∧ ∃ entries,
        PyVal.dict [("homeworks", PyVal.list []), ("code", PyVal.str "UnknownError")]
          = PyVal.dict entries
        ∧ pyHasKey entries "homeworks" = true
        ∧ isList (pyGet entries "homeworks") = true :=
  ⟨C9_homeworks_check_precedes_code_check.1 [("code", PyVal.str "not_authenticated")] rfl,
   C9_homeworks_check_precedes_code_check.2.2 _ "Неизвестная ошибка." rfl⟩

/-! ## Claim C4 -/

/-- C4, counterexample: when `PRACTICUM_TOKEN` is missing and when
`TELEGRAM_CHAT_ID` is missing, the process logs the identical fixed critical
message, so the logged message does not name the missing variable(s). -/
theorem C4_counterexample :
    mainStartup envMissingPracticum = mainStartup envMissingChatId
    ∧ mainStartup envMissingPracticum
      = StartupResult.exit CRITICAL_LEVEL missingTokensMsg 0 :=
  ⟨rfl, rfl⟩

/-- C4 (amended): if any of the three required configuration values is
missing or empty, the program logs a single fatal-severity (critical) message
— a fixed generic text that does not name the missing variable(s) — and
terminates immediately via hard exit, before entering the loop and before any
network call is attempted. -/
theorem C4_amended (env : String → Option String)
    (h : envTruthy (env "PRACTICUM_TOKEN") = false
       ∨ envTruthy (env "TELEGRAM_TOKEN") = false
       ∨ envTruthy (env "TELEGRAM_CHAT_ID") = false) :
    mainStartup env = StartupResult.exit CRITICAL_LEVEL missingTokensMsg 0 := by
  have hcf : check_tokens env = false := by
    rcases h with h | h | h <;> simp [check_tokens, h]
  simp [mainStartup, hcf]

/-- C4, witness: the amended theorem applied to the environment missing
`PRACTICUM_TOKEN`. -/
theorem C4_witness :
    mainStartup envMissingPracticum
      = StartupResult.exit CRITICAL_LEVEL missingTokensMsg 0 :=
  C4_amended envMissingPracticum (Or.inl rfl)

/-! ## Claim C10 -/

/-- C10: with required configuration missing, the process terminates via the
immediate hard exit `os._exit(0)` — exit status 0, the success code — even
though the failure was logged at critical severity. -/
theorem C10_exit_status_zero (env : String → Option String)
    (h : check_tokens env = false) :
    exitCode (mainStartup env) = some 0
    ∧ exitSeverity (mainStartup env) = some CRITICAL_LEVEL := by
  simp [mainStartup, h, exitCode, exitSeverity]

/-- C10, witness: the theorem applied to the environment missing
`TELEGRAM_CHAT_ID`. -/
theorem C10_witness :
    exitCode (mainStartup envMissingChatId) = some 0
    ∧ exitSeverity (mainStartup envMissingChatId) = some CRITICAL_LEVEL :=
  C10_exit_status_zero envMissingChatId rfl

/-! ## Claim C7 -/

/-- Unfolding of `runCycle` on a successful fetch. -/
theorem runCycle_ok_eq (now cp : Nat) (response : PyVal) :
    runCycle now (Except.ok response) cp
    = match check_response response with
      | Except.error e =>
        { checkpoint := cp, notifications := [],
          errorLogged := some (cycleFailureMsg e) }
      | Except.ok _ =>
        match (processHomeworks (extractHomeworks response)).2 with
        | some e =>
          { checkpoint := cp,
            notifications := (processHomeworks (extractHomeworks response)).1,
            errorLogged := some (cycleFailureMsg e) }
        | none =>
          { checkpoint := now,
            notifications := (processHomeworks (extractHomeworks response)).1,
            errorLogged := none } := rfl

/-- C7: the checkpoint is left unchanged whenever the cycle fails (an error
was caught and logged at the cycle boundary), it is set to the cycle-end
wall-clock time on success, and — given that the wall clock has not gone
backwards past the checkpoint — it never decreases. -/
theorem C7_checkpoint_invariant (now cp : Nat)
    (fetched : Except PracticumError PyVal) :
    ((runCycle now fetched cp).errorLogged.isSome = true →
      (runCycle now fetched cp).checkpoint = cp)
    ∧ ((runCycle now fetched cp).errorLogged = none →
      (runCycle now fetched cp).checkpoint = now)
    ∧ (cp ≤ now → cp ≤ (runCycle now fetched cp).checkpoint) := by
  rcases fetched with e | response
  · exact ⟨fun _ => rfl, fun h => Option.noConfusion h, fun _ => Nat.le_refl cp⟩
  · rcases hcr : check_response response with e | u
    · rw [runCycle_ok_eq, hcr]
      exact ⟨fun _ => rfl, fun h => Option.noConfusion h, fun _ => Nat.le_refl cp⟩
    · rcases hpe : (processHomeworks (extractHomeworks response)).2 with _ | e2
      · rw [runCycle_ok_eq, hcr, hpe]
        exact ⟨fun h => Bool.noConfusion h, fun _ => rfl, fun h => h⟩
      · rw [runCycle_ok_eq, hcr, hpe]
        exact ⟨fun _ => rfl, fun h => Option.noConfusion h, fun _ => Nat.le_refl cp⟩

/-- C7, witness: a failing fetch leaves the checkpoint at 400; a successful
empty-homeworks cycle advances it from 400 to at least 400. -/
theorem C7_witness :
    (runCycle 1000 (Except.error PracticumError.typeError) 400).checkpoint = 400
    ∧ 400 ≤ (runCycle 1000
        (Except.ok (PyVal.dict [("homeworks", PyVal.list [])])) 400).checkpoint :=
  ⟨(C7_checkpoint_invariant 1000 400 (Except.error PracticumError.typeError)).1 rfl,
   (C7_checkpoint_invariant 1000 400
     (Except.ok (PyVal.dict [("homeworks", PyVal.list [])]))).2.2 (by decide)⟩

/-! ## Bridge lemmas -/

/-- A debug-severity record never triggers the filter's forwarding branch. -/
theorem logViaFilter_debug (deliver : String → Bool) (n : Nat)
    (s : BridgeState) (m : String) :
    logViaFilter deliver n s { levelno := DEBUG_LEVEL, msg := m } = s := by
  cases n with
  | zero => rfl
  | succ k =>
    simp only [logViaFilter]
    rw [if_neg]
    intro h
    exact absurd h.1 (by decide)

/-- One error-severity record under a delivery that succeeds for its text:
forwarded and recorded when the text is new, suppressed when it equals
`last_message`. -/
theorem filter_error_step (deliver : String → Bool) (f : Nat)
    (s : BridgeState) (m : String) (hd : deliver m = true) :
    TelegramFilter.filter deliver (f + 1) s { levelno := ERROR_LEVEL, msg := m }
    = if s.last_message = m then s
      else { last_message := m, sentAttempts := s.sentAttempts ++ [m] } := by
  unfold TelegramFilter.filter
  by_cases hlm : s.last_message = m
  · rw [if_pos hlm]
    simp only [logViaFilter]
    rw [if_neg]
    intro h
    exact h.2 hlm
  · rw [if_neg hlm]
    simp only [logViaFilter]
    rw [if_pos (⟨by trivial, hlm⟩ : _ ∧ _), logViaFilter_debug, hd]
    simp only [if_true, logViaFilter_debug]

/-- Repeats of the text already recorded as `last_message` are all
suppressed. -/
theorem runErrorRecords_replicate_same (deliver : String → Bool) (f : Nat)
    (s : BridgeState) (t : String) (hlm : s.last_message = t)
    (hd : deliver t = true) (k : Nat) :
    runErrorRecords deliver (f + 1) s (List.replicate k t) = s := by
  induction k with
  | zero => rfl
  | succ k ih =>
    rw [List.replicate_succ]
    unfold runErrorRecords at ih ⊢
    rw [List.foldl_cons, filter_error_step deliver f s t hd, if_pos hlm]
    exact ih

/-! ## Claim C5 -/

/-- C5: with working delivery, N ≥ 1 consecutive error records with the same
text t (t different from the current `last_message`) produce exactly one
forwarded message t; and after a different text u has been sent, a later run
of occurrences of t is sent exactly once again. -/
theorem C5_dedup_consecutive_errors (f N M : Nat) (sent0 : List String)
    (l t u : String) (hlt : l ≠ t) (htu : t ≠ u) :
    runErrorRecords (fun _ => true) (f + 1)
        { last_message := l, sentAttempts := sent0 } (List.replicate (N + 1) t)
      = { last_message := t, sentAttempts := sent0 ++ [t] }
    ∧ runErrorRecords (fun _ => true) (f + 1)
        { last_message := l, sentAttempts := sent0 }
        (List.replicate (N + 1) t ++ u :: List.replicate (M + 1) t)
      = { last_message := t, sentAttempts := sent0 ++ [t, u, t] } := by
  have step1 :
      runErrorRecords (fun _ => true) (f + 1)
        { last_message := l, sentAttempts := sent0 } (List.replicate (N + 1) t)
      = { last_message := t, sentAttempts := sent0 ++ [t] } := by
    rw [List.replicate_succ]
    unfold runErrorRecords
    rw [List.foldl_cons, filter_error_step _ f _ t rfl, if_neg hlt]
    exact runErrorRecords_replicate_same (fun _ => true) f _ t rfl rfl N
  refine ⟨step1, ?_⟩
  unfold runErrorRecords
  rw [List.foldl_append]
  have hfold := step1
  unfold runErrorRecords at hfold
  rw [hfold, List.foldl_cons, filter_error_step _ f _ u rfl, if_neg htu,
    List.replicate_succ, List.foldl_cons,
    filter_error_step _ f _ t rfl, if_neg (Ne.symm htu)]
  have hsup := runErrorRecords_replicate_same (fun _ => true) f
    { last_message := t, sentAttempts := (sent0 ++ [t] ++ [u]) ++ [t] } t rfl rfl M
  unfold runErrorRecords at hsup
  rw [hsup]
  simp [List.append_assoc]

/-- C5, witness: one fresh text is forwarded once however often it repeats,
and forwarded again after an intervening different text. -/
theorem C5_witness :
    runErrorRecords (fun _ => true) 1
        { last_message := "", sentAttempts := [] } (List.replicate 3 "boom")
      = { last_message := "boom", sentAttempts := ["boom"] }
    ∧ runErrorRecords (fun _ => true) 1
        { last_message := "", sentAttempts := [] }
        (List.replicate 3 "boom" ++ "other" :: List.replicate 2 "boom")
      = { last_message := "boom", sentAttempts := ["boom", "other", "boom"] } :=
  C5_dedup_consecutive_errors 0 2 1 [] "" "boom" "other" (by decide) (by decide)

/-! ## Claim C2 -/

/-- Length of the failure chain equals the available fuel. -/
theorem failChainMsgs_length (n : Nat) : ∀ m, (failChainMsgs n m).length = n := by
  induction n with
  | zero => intro m; rfl
  | succ k ih =>
    intro m
    simp only [failChainMsgs, List.length_cons, ih]

/-- Under a bot whose delivery always fails, an error record whose text is
longer than `last_message` triggers a delivery attempt for its own text and
then recursively for every delivery-failure log, until fuel runs out. -/
theorem logViaFilter_fail_chain (n : Nat) : ∀ (s : BridgeState) (m : String),
    s.last_message.length < m.length →
    (logViaFilter (fun _ => false) n s
        { levelno := ERROR_LEVEL, msg := m }).sentAttempts
      = s.sentAttempts ++ failChainMsgs n m := by
  induction n with
  | zero => intro s m _; exact (List.append_nil _).symm
  | succ k ih =>
    intro s m hlen
    have hne : s.last_message ≠ m := by
      intro he
      rw [he] at hlen
      exact Nat.lt_irrefl _ hlen
    simp only [logViaFilter]
    rw [if_pos (⟨by trivial, hne⟩ : _ ∧ _)]
    simp only [logViaFilter_debug, Bool.false_eq_true, if_false]
    have hlen2 : s.last_message.length < (sendFailLog m).length := by
      unfold sendFailLog
      rw [String.length_append]
      exact Nat.lt_of_lt_of_le hlen (Nat.le_add_left _ _)
    have := ih { s with sentAttempts := s.sentAttempts ++ [m] } (sendFailLog m) hlen2
    rw [this]
    simp [failChainMsgs, List.append_assoc]

/-- C2: the code has no self-notification guard. Feeding one error record
(text `boom`) to the filter while every delivery fails makes the bridge
forward the delivery-failure log of `boom` itself (`sendFailLog "boom"` is
among the delivery attempts), and the number of delivery attempts equals the
whole available fuel — the recursion is unbounded, growing the message each
level, exactly the runaway the claim says is excluded. -/
theorem C2_no_self_notification_guard (n : Nat) :
    (TelegramFilter.filter (fun _ => false) (n + 2)
        { last_message := "", sentAttempts := [] }
        { levelno := ERROR_LEVEL, msg := "boom" }).sentAttempts
      = "boom" :: sendFailLog "boom"
          :: failChainMsgs n (sendFailLog (sendFailLog "boom"))
    ∧ sendFailLog "boom" ∈ (TelegramFilter.filter (fun _ => false) (n + 2)
        { last_message := "", sentAttempts := [] }
        { levelno := ERROR_LEVEL, msg := "boom" }).sentAttempts
    ∧ ((TelegramFilter.filter (fun _ => false) (n + 2)
        { last_message := "", sentAttempts := [] }
        { levelno := ERROR_LEVEL, msg := "boom" }).sentAttempts).length = n + 2 := by
  have hchain := logViaFilter_fail_chain (n + 2)
    { last_message := "", sentAttempts := [] } "boom" (by decide)
  have hshape : (TelegramFilter.filter (fun _ => false) (n + 2)
        { last_message := "", sentAttempts := [] }
        { levelno := ERROR_LEVEL, msg := "boom" }).sentAttempts
      = "boom" :: sendFailLog "boom"
          :: failChainMsgs n (sendFailLog (sendFailLog "boom")) := by
    unfold TelegramFilter.filter
    rw [hchain]
    simp [failChainMsgs]
  refine ⟨hshape, ?_, ?_⟩
  · rw [hshape]
    exact List.mem_cons_of_mem _ (List.mem_cons_self _ _)
  · rw [hshape]
    simp [failChainMsgs_length]

/-! ## Claim C8 -/

/-- Python equality with a string literal holds exactly for that string
value. -/
theorem pyEqStr_eq_true_iff (v : PyVal) (s : String) :
    pyEqStr v s = true ↔ v = PyVal.str s := by
  cases v <;> simp [pyEqStr]

/-- C8, counterexample: for the response carrying only
`code = not_authenticated`, `check_response` fails with `TypeError`, not with
the `PracticumRequestError` the claim states — `response.get("homeworks")`
is `None` and the shape check fires before the code check. -/
theorem C8_counterexample :
    check_response (PyVal.dict [("code", PyVal.str "not_authenticated")])
      = Except.error PracticumError.typeError
    ∧ PracticumError.typeError
      ≠ PracticumError.practicumRequestError "Ошибра авторизации." :=
  ⟨rfl, by decide⟩

/-- C8 (amended): the two fixed-message `PracticumRequestError` outcomes occur
when the response also carries a list-valued `homeworks` key; for the bare
not-authenticated response, `check_response` fails with `TypeError` instead —
still one error-severity record logged, the checkpoint unchanged, no
notification from the cycle itself, and the bridge forwards the logged error
text once to the messaging endpoint. -/
theorem C8_amended (entries : List (String × PyVal)) (now cp fuel : Nat)
    (s : BridgeState) :
    (isList (pyGet entries "homeworks") = true →
      (pyEqStr (pyGet entries "code") "not_authenticated" = true →
        check_response (PyVal.dict entries)
          = Except.error (PracticumError.practicumRequestError "Ошибра авторизации."))
      ∧ (pyEqStr (pyGet entries "code") "UnknownError" = true →
        check_response (PyVal.dict entries)
          = Except.error (PracticumError.practicumRequestError "Неизвестная ошибка.")))
    ∧ runCycle now (Except.ok (PyVal.dict [("code", PyVal.str "not_authenticated")])) cp
      = { checkpoint := cp, notifications := [],
          errorLogged := some (cycleFailureMsg PracticumError.typeError) }
    ∧ (s.last_message ≠ cycleFailureMsg PracticumError.typeError →
        (TelegramFilter.filter (fun _ => true) (fuel + 1) s
          { levelno := ERROR_LEVEL,
            msg := cycleFailureMsg PracticumError.typeError }).sentAttempts
        = s.sentAttempts ++ [cycleFailureMsg PracticumError.typeError]) := by
  refine ⟨fun hl => ⟨fun h1 => ?_, fun h2 => ?_⟩, rfl, fun hne => ?_⟩
  · have hcv : pyGet entries "code" = PyVal.str "not_authenticated" :=
      (pyEqStr_eq_true_iff _ _).mp h1
    have hck : pyHasKey entries "code" = true :=
      pyHasKey_of_pyGet_ne_none _ _ (by rw [hcv]; exact fun hx => PyVal.noConfusion hx)
    simp [check_response, hl, hck, h1]
  · have hcv : pyGet entries "code" = PyVal.str "UnknownError" :=
      (pyEqStr_eq_true_iff _ _).mp h2
    have hck : pyHasKey entries "code" = true :=
      pyHasKey_of_pyGet_ne_none _ _ (by rw [hcv]; exact fun hx => PyVal.noConfusion hx)
    have h1f : pyEqStr (pyGet entries "code") "not_authenticated" = false := by
      rw [hcv]; rfl
    simp [check_response, hl, hck, h1f, h2]
  · rw [filter_error_step (fun _ => true) fuel s _ rfl, if_neg hne]

/-- C8, witness: the amended theorem applied to concrete responses with a
list-valued homeworks key and each recognized code, to the bare
not-authenticated response, and to a bridge state with a fresh error text. -/
theorem C8_witness :
    check_response (PyVal.dict
        [("homeworks", PyVal.list []), ("code", PyVal.str "not_authenticated")])
      = Except.error (PracticumError.practicumRequestError "Ошибра авторизации.")
    ∧ check_response (PyVal.dict
        [("homeworks", PyVal.list []), ("code", PyVal.str "UnknownError")])
      = Except.error (PracticumError.practicumRequestError "Неизвестная ошибка.")
    ∧ runCycle 1000 (Except.ok (PyVal.dict [("code", PyVal.str "not_authenticated")])) 400
      = { checkpoint := 400, notifications := [],
          errorLogged := some (cycleFailureMsg PracticumError.typeError) }
    ∧ (TelegramFilter.filter (fun _ => true) 1
        { last_message := "", sentAttempts := [] }
        { levelno := ERROR_LEVEL,
          msg := cycleFailureMsg PracticumError.typeError }).sentAttempts
      = [cycleFailureMsg PracticumError.typeError] :=
  ⟨((C8_amended [("homeworks", PyVal.list []), ("code", PyVal.str "not_authenticated")]
      0 0 0 { last_message := "", sentAttempts := [] }).1 rfl).1 rfl,
   ((C8_amended [("homeworks", PyVal.list []), ("code", PyVal.str "UnknownError")]
      0 0 0 { last_message := "", sentAttempts := [] }).1 rfl).2 rfl,
   (C8_amended [] 1000 400 0 { last_message := "", sentAttempts := [] }).2.1,
   (C8_amended [] 0 0 0 { last_message := "", sentAttempts := [] }).2.2 (by decide)⟩
